import Mathlib

/-!
Verification of the collision-to-constraint core of the nphysics rigid-body
engine: the pair validity filter and collision tracker of
src/detection/bodies_bodies.rs and the contact-to-constraint builder of
src/resolution/constraint/contact_equation.rs.

Embedding conventions: the scalar type N of ncollide::math is embedded as
the rationals; the linear-vector type LV and angular-vector type AV as
3-dimensional rational vectors (the 3-dimensional build of the crate); the
inverse inertia tensor as a 3 by 3 rational matrix.  Mutation of a
VelocityConstraint record becomes a function from the old record to the new
one; the slice of friction constraints becomes a list updated by List.set;
the warm-start impulse cache slice becomes its indexing function.
-/

/-- A 3-dimensional vector with rational coordinates: the embedding of the
ncollide math types LV and AV. -/
structure Vec3 where
  x : ℚ
  y : ℚ
  z : ℚ
deriving DecidableEq

instance : Add Vec3 := ⟨fun a b => ⟨a.x + b.x, a.y + b.y, a.z + b.z⟩⟩

instance : Sub Vec3 := ⟨fun a b => ⟨a.x - b.x, a.y - b.y, a.z - b.z⟩⟩

instance : Neg Vec3 := ⟨fun a => ⟨-a.x, -a.y, -a.z⟩⟩

/-- Multiplication of a vector by a scalar (written vector * scalar in the
source). -/
def Vec3.smul (k : ℚ) (v : Vec3) : Vec3 := ⟨k * v.x, k * v.y, k * v.z⟩

/-- The dot product na::dot. -/
def Vec3.dot (a b : Vec3) : ℚ := a.x * b.x + a.y * b.y + a.z * b.z

/-- The cross product na::cross (3-dimensional build). -/
def Vec3.cross (a b : Vec3) : Vec3 :=
  ⟨a.y * b.z - a.z * b.y, a.z * b.x - a.x * b.z, a.x * b.y - a.y * b.x⟩

/-- The zero vector na::zero. -/
def Vec3.zero : Vec3 := ⟨0, 0, 0⟩

/-- A 3 by 3 rational matrix, embedding the inverse inertia tensor of the
3-dimensional build. -/
structure Mat3 where
  row1 : Vec3
  row2 : Vec3
  row3 : Vec3
deriving DecidableEq

/-- Application of the (inverse inertia) tensor to an angular vector, the
InertiaTensor::apply method: a matrix-vector product. -/
def Mat3.apply (m : Mat3) (v : Vec3) : Vec3 :=
  ⟨Vec3.dot m.row1 v, Vec3.dot m.row2 v, Vec3.dot m.row3 v⟩

/-- The zero matrix. -/
def Mat3.zero : Mat3 := ⟨Vec3.zero, Vec3.zero, Vec3.zero⟩

/-- An axis-aligned bounding box, embedding ncollide's AABB (a dependency of
this crate, not part of its sources): the box between the two corners. -/
structure AABB where
  mins : Vec3
  maxs : Vec3
deriving DecidableEq

/-- Modelled from the spec: the bounding-volume overlap test used by the
external broad phase (ncollide, not under the sources of this crate).  Two
axis-aligned boxes intersect exactly when their coordinate ranges overlap on
every axis. -/
def AABB.intersects (a b : AABB) : Bool :=
  decide (a.mins.x ≤ b.maxs.x) && decide (b.mins.x ≤ a.maxs.x) &&
  (decide (a.mins.y ≤ b.maxs.y) && decide (b.mins.y ≤ a.maxs.y)) &&
  (decide (a.mins.z ≤ b.maxs.z) && decide (b.mins.z ≤ a.maxs.z))

/-- Modelled from the spec: the external object::RigidBody referenced (never
owned) by this core; its definition is not under the given sources.  The
fields are exactly the read accessors the verified code calls: restitution
and friction coefficients, center of mass, inverse mass, inverse inertia,
linear and angular velocity and acceleration, movability, the stable integer
index, the activity flag and the bounding volume.  The addr field stands for
the address of the body's shared allocation, so borrow::ref_eq compares addr
fields. -/
structure RigidBody where
  addr : ℕ
  restitution : ℚ
  friction : ℚ
  centerOfMass : Vec3
  invMass : ℚ
  invInertia : Mat3
  linVel : Vec3
  angVel : Vec3
  linAcc : Vec3
  angAcc : Vec3
  canMove : Bool
  index : ℤ
  isActive : Bool
  boundingVolume : AABB
deriving DecidableEq

/-- A geometric contact, embedding ncollide::contact::Contact: the two
world-space contact points, the unit normal from body 1 toward body 2 and
the penetration depth (positive means overlapping). -/
structure Contact where
  world1 : Vec3
  world2 : Vec3
  normal : Vec3
  depth : ℚ
deriving DecidableEq

/-- The numerical constraint record filled by the builder, embedding
resolution::constraint::velocity_constraint::VelocityConstraint with the
fields read and written by contact_equation.rs. -/
structure VelocityConstraint where
  normal : Vec3
  weighted_normal1 : Vec3
  weighted_normal2 : Vec3
  rot_axis1 : Vec3
  rot_axis2 : Vec3
  weighted_rot_axis1 : Vec3
  weighted_rot_axis2 : Vec3
  inv_projected_mass : ℚ
  objective : ℚ
  impulse : ℚ
  lobound : ℚ
  hibound : ℚ
  friction_limit_id : ℕ
  friction_coeff : ℚ
  id1 : ℤ
  id2 : ℤ
deriving DecidableEq

/-- An all-zero constraint record, used as the default element when reading
a slot of the friction-constraint list. -/
def zeroConstraint : VelocityConstraint :=
  { normal := Vec3.zero, weighted_normal1 := Vec3.zero,
    weighted_normal2 := Vec3.zero, rot_axis1 := Vec3.zero,
    rot_axis2 := Vec3.zero, weighted_rot_axis1 := Vec3.zero,
    weighted_rot_axis2 := Vec3.zero, inv_projected_mass := 0, objective := 0,
    impulse := 0, lobound := 0, hibound := 0, friction_limit_id := 0,
    friction_coeff := 0, id1 := 0, id2 := 0 }

/-- Bounded::max_value() of the scalar type N: the largest finite
representable scalar, the code's stand-in for plus infinity (the exact value
for an IEEE single-precision N; only its being a fixed very large positive
scalar matters). -/
def boundedMaxValue : ℚ := (2 ^ 24 - 1) * 2 ^ 104

/-- The penetration-correction policy,
contact_equation.rs lines 11-15 (enum CorrectionMode). -/
inductive CorrectionMode where
  | Velocity : ℚ → CorrectionMode
  | VelocityAndPosition : ℚ → ℚ → ℚ → CorrectionMode
  | VelocityAndPositionThresold : ℚ → ℚ → ℚ → CorrectionMode
deriving DecidableEq

/-- CorrectionMode::vel_corr_factor, contact_equation.rs lines 18-25. -/
def CorrectionMode.vel_corr_factor : CorrectionMode → ℚ
  | CorrectionMode.Velocity v => v
  | CorrectionMode.VelocityAndPosition v _ _ => v
  | CorrectionMode.VelocityAndPositionThresold v _ _ => v

/-- CorrectionMode::pos_corr_factor, contact_equation.rs lines 27-34. -/
def CorrectionMode.pos_corr_factor : CorrectionMode → ℚ
  | CorrectionMode.VelocityAndPosition _ p _ => p
  | CorrectionMode.VelocityAndPositionThresold _ p _ => p
  | CorrectionMode.Velocity _ => 0

/-- CorrectionMode::min_depth_for_pos_corr, contact_equation.rs
lines 36-43. -/
def CorrectionMode.min_depth_for_pos_corr : CorrectionMode → ℚ
  | CorrectionMode.VelocityAndPosition _ _ t => t
  | CorrectionMode.VelocityAndPositionThresold _ _ t => t
  | CorrectionMode.Velocity _ => boundedMaxValue

/-- CorrectionMode::max_depth_for_vel_corr, contact_equation.rs
lines 45-52. -/
def CorrectionMode.max_depth_for_vel_corr : CorrectionMode → ℚ
  | CorrectionMode.VelocityAndPosition _ _ _ => boundedMaxValue
  | CorrectionMode.VelocityAndPositionThresold _ _ t => t
  | CorrectionMode.Velocity _ => boundedMaxValue

/-- CorrectionParameters, contact_equation.rs lines 55-59. -/
structure CorrectionParameters where
  corr_mode : CorrectionMode
  joint_corr : ℚ
  rest_eps : ℚ
deriving DecidableEq

/-- reinit_to_first_order_equation, contact_equation.rs lines 61-79: the
per-outer-iteration reset that recomputes the objective from the current
depth and zeroes the impulse. -/
def reinit_to_first_order_equation (dt : ℚ) (coll : Contact)
    (constraint : VelocityConstraint) (correction : CorrectionParameters) :
    VelocityConstraint :=
  let c1 :=
    if coll.depth ≥ correction.corr_mode.min_depth_for_pos_corr then
      { constraint with
        objective :=
          correction.corr_mode.pos_corr_factor * max coll.depth 0 / dt }
    else
      { constraint with objective := 0 }
  { c1 with impulse := 0 }

/-- fill_constraint_geometry, contact_equation.rs lines 140-184: writes the
normal, accumulates each movable body's mass and inertia contribution into
inv_projected_mass, and finally inverts the accumulated sum.  In the source
the scalars are floats and a both-immovable pair would divide by zero (an
upstream contract violation per the spec); here 1 / 0 = 0. -/
def fill_constraint_geometry (normal rot_axis1 rot_axis2 : Vec3)
    (rb1 rb2 : Option RigidBody) (constraint : VelocityConstraint) :
    VelocityConstraint :=
  let c0 := { constraint with normal := normal, inv_projected_mass := 0 }
  let c1 :=
    match rb1 with
    | some rb =>
      let ca := { c0 with
        weighted_normal1 := Vec3.smul rb.invMass c0.normal,
        rot_axis1 := rot_axis1 }
      let cb := { ca with
        weighted_rot_axis1 := Mat3.apply rb.invInertia ca.rot_axis1 }
      { cb with
        inv_projected_mass := cb.inv_projected_mass +
          Vec3.dot cb.normal cb.weighted_normal1 +
          Vec3.dot cb.rot_axis1 cb.weighted_rot_axis1 }
    | none => c0
  let c2 :=
    match rb2 with
    | some rb =>
      let ca := { c1 with
        weighted_normal2 := Vec3.smul rb.invMass c1.normal,
        rot_axis2 := rot_axis2 }
      let cb := { ca with
        weighted_rot_axis2 := Mat3.apply rb.invInertia ca.rot_axis2 }
      { cb with
        inv_projected_mass := cb.inv_projected_mass +
          Vec3.dot cb.normal cb.weighted_normal2 +
          Vec3.dot cb.rot_axis2 cb.weighted_rot_axis2 }
    | none => c1
  { c2 with inv_projected_mass := 1 / c2.inv_projected_mass }

/-- relative_velocity, contact_equation.rs lines 245-274: the relative
velocity of the two bodies along the constraint axis, extrapolated one
timestep by the accelerations, each side contributing only when the body is
present (movable). -/
def relative_velocity (rb1 rb2 : Option RigidBody)
    (normal rot_axis1 rot_axis2 : Vec3) (dt : ℚ) : ℚ :=
  let dvel : ℚ := 0
  let dvel :=
    match rb1 with
    | some rb =>
      dvel - Vec3.dot (rb.linVel + Vec3.smul dt rb.linAcc) normal
           + Vec3.dot (rb.angVel + Vec3.smul dt rb.angAcc) rot_axis1
    | none => dvel
  let dvel :=
    match rb2 with
    | some rb =>
      dvel + Vec3.dot (rb.linVel + Vec3.smul dt rb.linAcc) normal
           + Vec3.dot (rb.angVel + Vec3.smul dt rb.angAcc) rot_axis2
    | none => dvel
  dvel

/-- fill_velocity_constraint, contact_equation.rs lines 186-243. -/
def fill_velocity_constraint (dt : ℚ) (normal center : Vec3)
    (restitution depth initial_impulse lobound hibound : ℚ)
    (rb1 rb2 : RigidBody) (constraint : VelocityConstraint)
    (correction : CorrectionParameters) : VelocityConstraint :=
  let rot_axis1 := Vec3.cross (center - rb1.centerOfMass) (-normal)
  let rot_axis2 := Vec3.cross (center - rb2.centerOfMass) normal
  let opt_rb1 := if rb1.canMove then some rb1 else none
  let opt_rb2 := if rb2.canMove then some rb2 else none
  let c0 := fill_constraint_geometry normal rot_axis1 rot_axis2 opt_rb1
    opt_rb2 constraint
  let c1 := { c0 with id1 := rb1.index, id2 := rb2.index }
  let c2 := { c1 with
    objective :=
      relative_velocity opt_rb1 opt_rb2 c1.normal c1.rot_axis1 c1.rot_axis2
        dt }
  let c3 :=
    if c2.objective < -correction.rest_eps then
      { c2 with objective := c2.objective + restitution * c2.objective }
    else c2
  let c4 := { c3 with objective := -c3.objective }
  let c5 :=
    if depth < 0 then
      { c4 with objective := c4.objective + depth / dt }
    else if depth < correction.corr_mode.max_depth_for_vel_corr then
      { c4 with
        objective := c4.objective +
          depth * correction.corr_mode.vel_corr_factor / dt }
    else c4
  let c6 := { c5 with impulse := if depth < 0 then 0 else initial_impulse }
  { c6 with lobound := lobound, hibound := hibound }

/-- The body of the closure passed to na::orthonormal_subspace_basis in
fill_second_order_equation, contact_equation.rs lines 116-137: fill one
friction constraint from one friction axis (restitution 0, depth 0, bounds
0 and 0, warm-start value from the cache), then link it to the normal
constraint through friction_coeff and friction_limit_id. -/
def fillFrictionConstraint (dt : ℚ) (center : Vec3) (rb1 rb2 : RigidBody)
    (correction : CorrectionParameters) (friction : ℚ) (idr : ℕ)
    (cacheVal : ℚ) (friction_axis : Vec3) (old : VelocityConstraint) :
    VelocityConstraint :=
  let c := fill_velocity_constraint dt friction_axis center 0 0 cacheVal 0 0
    rb1 rb2 old correction
  { c with friction_coeff := friction, friction_limit_id := idr }

/-- The loop of fill_second_order_equation over the friction axes produced
by na::orthonormal_subspace_basis (an external nalgebra routine; the axes
list is therefore a parameter), contact_equation.rs lines 114-137: the
counter i starts at 0 and the constraint at slot idf + i is filled from
axis i and cache entry i + 1. -/
def frictionLoop (dt : ℚ) (center : Vec3) (rb1 rb2 : RigidBody)
    (correction : CorrectionParameters) (cache : ℕ → ℚ) (friction : ℚ)
    (idr idf : ℕ) : ℕ → List Vec3 → List VelocityConstraint →
    List VelocityConstraint
  | _, [], fconstraints => fconstraints
  | i, friction_axis :: rest, fconstraints =>
    let c := fillFrictionConstraint dt center rb1 rb2 correction friction idr
      (cache (i + 1)) friction_axis (fconstraints.getD (idf + i)
        zeroConstraint)
    frictionLoop dt center rb1 rb2 correction cache friction idr idf (i + 1)
      rest (fconstraints.set (idf + i) c)

/-- fill_second_order_equation, contact_equation.rs lines 81-138: fills the
normal constraint (restitution from the product of the bodies' coefficients,
warm start from cache entry 0, bounds 0 and Bounded::max_value) and one
friction constraint per friction axis.  Returns the filled normal
constraint and the updated friction-constraint list. -/
def fill_second_order_equation (dt : ℚ) (coll : Contact)
    (rb1 rb2 : RigidBody) (rconstraint : VelocityConstraint) (idr : ℕ)
    (fconstraints : List VelocityConstraint) (idf : ℕ) (cache : ℕ → ℚ)
    (correction : CorrectionParameters) (frictionAxes : List Vec3) :
    VelocityConstraint × List VelocityConstraint :=
  let restitution := rb1.restitution * rb2.restitution
  let center := Vec3.smul (1 / 2) (coll.world1 + coll.world2)
  let rcon := fill_velocity_constraint dt coll.normal center restitution
    coll.depth (cache 0) 0 boundedMaxValue rb1 rb2 rconstraint correction
  let friction := rb1.friction * rb2.friction
  (rcon, frictionLoop dt center rb1 rb2 correction cache friction idr idf 0
    frictionAxes fconstraints)

/-- borrow::ref_eq on shared body references: equality of allocation
addresses. -/
def refEq (a b : RigidBody) : Bool := a.addr == b.addr

/-- BodyBodyDispatcher::is_valid, bodies_bodies.rs lines 41-51: a pair is
valid when the references are distinct and at least one body can move. -/
def is_valid (a b : RigidBody) : Bool :=
  if refEq a b then false
  else a.canMove || b.canMove

/-- One pair tracked by the broad phase during BodiesBodies::update: the two
bodies and the narrow-phase detector's contact count before and after
cd.update (the narrow phase is external ncollide code, so the post-update
count is a field of the pair rather than a computation). -/
structure TrackedPair where
  b1 : RigidBody
  b2 : RigidBody
  ncolsBefore : ℕ
  ncolsAfter : ℕ

/-- BodiesBodies::update, bodies_bodies.rs lines 132-160: for each tracked
pair, read the contact count, re-run the detector, read the new count, and
when the count crosses zero in either direction request activation of both
bodies.  The result is the ordered list of will_activate calls made to the
activation manager. -/
def update (pairs : List TrackedPair) : List RigidBody :=
  pairs.flatMap (fun p =>
    let ncols := p.ncolsBefore
    let new_ncols := p.ncolsAfter
    if ncols == 0 && new_ncols != 0 then [p.b1, p.b2]
    else if ncols != 0 && new_ncols == 0 then [p.b1, p.b2]
    else [])

/-- Modelled from the spec: the external broad phase's
interferences_with_bounding_volume query (ncollide, not under the sources of
this crate) over a world given as the list of tracked bodies: it returns
every tracked body whose bounding volume intersects the given volume. -/
def interferences_with_bounding_volume (world : List RigidBody)
    (bv : AABB) : List RigidBody :=
  world.filter (fun b => AABB.intersects b.boundingVolume bv)

/-- BodiesBodies::remove, bodies_bodies.rs lines 107-126: when the removed
body is inactive, every distinct, inactive, movable body returned by the
bounding-volume interference query is reported to the activation manager.
The result is the list of will_activate calls made. -/
def remove (world : List RigidBody) (o : RigidBody) : List RigidBody :=
  if !o.isActive then
    let aabb := o.boundingVolume
    let interferences := interferences_with_bounding_volume world aabb
    interferences.filter (fun i =>
      !refEq i o && (!i.isActive && i.canMove))
  else []

/-!
Specification-side definitions: named values that the spec's sentences talk
about, recomputed from the same formulas so the theorems below can relate
the builder's outputs to them.
-/

/-- The body as the builder passes it to the geometry and relative-velocity
helpers: present exactly when it can move (contact_equation.rs
lines 201-202). -/
def optBody (rb : RigidBody) : Option RigidBody :=
  if rb.canMove then some rb else none

/-- The midpoint of the contact's two world points (contact_equation.rs
line 93). -/
def contactCenter (coll : Contact) : Vec3 :=
  Vec3.smul (1 / 2) (coll.world1 + coll.world2)

/-- Body 1's rotation axis: the cross product of the arm from its center of
mass to the contact center with the negated normal (contact_equation.rs
line 198). -/
def contactRotAxis1 (center : Vec3) (rb1 : RigidBody) (normal : Vec3) :
    Vec3 :=
  Vec3.cross (center - rb1.centerOfMass) (-normal)

/-- Body 2's rotation axis: the cross product of the arm from its center of
mass to the contact center with the normal (contact_equation.rs
line 199). -/
def contactRotAxis2 (center : Vec3) (rb2 : RigidBody) (normal : Vec3) :
    Vec3 :=
  Vec3.cross (center - rb2.centerOfMass) normal

/-- One body's contribution to the accumulated effective-mass term: an
absent (immovable) body contributes nothing, a movable body contributes
dot(normal, inv_mass * normal) + dot(rot_axis, inv_inertia(rot_axis)). -/
def bodyMassContribution (normal axis : Vec3) : Option RigidBody → ℚ
  | none => 0
  | some rb =>
    Vec3.dot normal (Vec3.smul rb.invMass normal) +
    Vec3.dot axis (Mat3.apply rb.invInertia axis)

/-- The accumulated effective-mass term along the constraint axis: the sum
of the two bodies' contributions. -/
def massTerm (normal rot_axis1 rot_axis2 : Vec3)
    (rb1 rb2 : Option RigidBody) : ℚ :=
  bodyMassContribution normal rot_axis1 rb1 +
  bodyMassContribution normal rot_axis2 rb2

/-- The penetration bias added to the objective: depth / dt for a separating
contact, depth * vel_corr_factor / dt while the depth is below the mode's
cap for velocity correction, nothing beyond the cap. -/
def penBias (correction : CorrectionParameters) (depth dt : ℚ) : ℚ :=
  if depth < 0 then depth / dt
  else if depth < correction.corr_mode.max_depth_for_vel_corr then
    depth * correction.corr_mode.vel_corr_factor / dt
  else 0

/-- The relative velocity of the two bodies along the constraint axis,
extrapolated one timestep, taking each body into account exactly when it can
move, with the rotation axes recomputed from the contact center. -/
def contactRelVel (dt : ℚ) (normal center : Vec3) (rb1 rb2 : RigidBody) :
    ℚ :=
  relative_velocity (optBody rb1) (optBody rb2) normal
    (contactRotAxis1 center rb1 normal) (contactRotAxis2 center rb2 normal)
    dt

/-- The identity matrix, a simple concrete inverse inertia tensor. -/
def Mat3.identity : Mat3 := ⟨⟨1, 0, 0⟩, ⟨0, 1, 0⟩, ⟨0, 0, 1⟩⟩

/-- A concrete movable unit-mass body, used to evaluate the builder on
explicit inputs. -/
def exMovingBody1 : RigidBody :=
  { addr := 1, restitution := 1 / 2, friction := 1 / 2,
    centerOfMass := Vec3.zero, invMass := 1, invInertia := Mat3.identity,
    linVel := Vec3.zero, angVel := Vec3.zero, linAcc := Vec3.zero,
    angAcc := Vec3.zero, canMove := true, index := 0, isActive := true,
    boundingVolume := ⟨Vec3.zero, Vec3.zero⟩ }

/-- A second concrete movable body. -/
def exMovingBody2 : RigidBody := { exMovingBody1 with addr := 2, index := 1 }

/-- A concrete immovable body. -/
def exStaticBody : RigidBody :=
  { exMovingBody1 with
    addr := 3, invMass := 0, invInertia := Mat3.zero,
    canMove := false, index := 2 }

/-- A concrete separating contact (negative depth) along the x axis. -/
def exSeparatingContact : Contact :=
  { world1 := ⟨1, 0, 0⟩, world2 := ⟨1, 0, 0⟩, normal := ⟨1, 0, 0⟩,
    depth := -1 }

/-- Concrete correction parameters with a purely velocity-based mode. -/
def exCorrection : CorrectionParameters :=
  { corr_mode := CorrectionMode.Velocity (2 / 10), joint_corr := 0,
    rest_eps := 1 / 10 }

/-- A concrete orthonormal basis of the plane perpendicular to the x axis:
what na::orthonormal_subspace_basis yields for the normal (1,0,0) in the
3-dimensional build (dimension minus one axes). -/
def exFrictionAxes : List Vec3 := [⟨0, 1, 0⟩, ⟨0, 0, 1⟩]

/-- A concrete warm-start impulse cache: 5 in the normal slot, 7 in every
friction slot. -/
def exCache : ℕ → ℚ := fun i => if i == 0 then 5 else 7

/-- A concrete destination slot holding visibly nonzero stale values in
every per-body and friction field. -/
def exPrevConstraint : VelocityConstraint :=
  { zeroConstraint with
    weighted_normal1 := ⟨1, 2, 3⟩,
    rot_axis1 := ⟨4, 5, 6⟩, weighted_rot_axis1 := ⟨7, 8, 9⟩,
    weighted_normal2 := ⟨1, 1, 1⟩, rot_axis2 := ⟨2, 2, 2⟩,
    weighted_rot_axis2 := ⟨3, 3, 3⟩, friction_coeff := 11,
    friction_limit_id := 4 }

lemma relative_velocity_ignores_axis1 (orb2 : Option RigidBody)
    (n a1 a1' a2 : Vec3) (dt : ℚ) :
    relative_velocity none orb2 n a1 a2 dt =
    relative_velocity none orb2 n a1' a2 dt := by
  cases orb2 <;> rfl

lemma relative_velocity_ignores_axis2 (orb1 : Option RigidBody)
    (n a1 a2 a2' : Vec3) (dt : ℚ) :
    relative_velocity orb1 none n a1 a2 dt =
    relative_velocity orb1 none n a1 a2' dt := by
  cases orb1 <;> rfl

lemma fcg_normal (n ra1 ra2 : Vec3) (orb1 orb2 : Option RigidBody)
    (c : VelocityConstraint) :
    (fill_constraint_geometry n ra1 ra2 orb1 orb2 c).normal = n := by
  cases orb1 <;> cases orb2 <;> rfl

lemma fcg_rot_axis1 (n ra1 ra2 : Vec3) (orb1 orb2 : Option RigidBody)
    (c : VelocityConstraint) :
    (fill_constraint_geometry n ra1 ra2 orb1 orb2 c).rot_axis1 =
      (match orb1 with | some _ => ra1 | none => c.rot_axis1) := by
  cases orb1 <;> cases orb2 <;> rfl

lemma fcg_rot_axis2 (n ra1 ra2 : Vec3) (orb1 orb2 : Option RigidBody)
    (c : VelocityConstraint) :
    (fill_constraint_geometry n ra1 ra2 orb1 orb2 c).rot_axis2 =
      (match orb2 with | some _ => ra2 | none => c.rot_axis2) := by
  cases orb1 <;> cases orb2 <;> rfl

lemma fcg_inv_projected_mass (n ra1 ra2 : Vec3)
    (orb1 orb2 : Option RigidBody) (c : VelocityConstraint) :
    (fill_constraint_geometry n ra1 ra2 orb1 orb2 c).inv_projected_mass =
      1 / massTerm n ra1 ra2 orb1 orb2 := by
  cases orb1 <;> cases orb2 <;>
    (simp [fill_constraint_geometry, massTerm, bodyMassContribution];
     try ring_nf)

lemma fcg_untouched (n ra1 ra2 : Vec3) (orb1 orb2 : Option RigidBody)
    (c : VelocityConstraint) :
    (fill_constraint_geometry n ra1 ra2 orb1 orb2 c).objective =
        c.objective ∧
    (fill_constraint_geometry n ra1 ra2 orb1 orb2 c).impulse = c.impulse ∧
    (fill_constraint_geometry n ra1 ra2 orb1 orb2 c).lobound = c.lobound ∧
    (fill_constraint_geometry n ra1 ra2 orb1 orb2 c).hibound = c.hibound ∧
    (fill_constraint_geometry n ra1 ra2 orb1 orb2 c).friction_coeff =
        c.friction_coeff ∧
    (fill_constraint_geometry n ra1 ra2 orb1 orb2 c).friction_limit_id =
        c.friction_limit_id ∧
    (fill_constraint_geometry n ra1 ra2 orb1 orb2 c).id1 = c.id1 ∧
    (fill_constraint_geometry n ra1 ra2 orb1 orb2 c).id2 = c.id2 := by
  cases orb1 <;> cases orb2 <;>
    exact ⟨rfl, rfl, rfl, rfl, rfl, rfl, rfl, rfl⟩

lemma fcg_side1_none (n ra1 ra2 : Vec3) (orb2 : Option RigidBody)
    (c : VelocityConstraint) :
    (fill_constraint_geometry n ra1 ra2 none orb2 c).weighted_normal1 =
        c.weighted_normal1 ∧
    (fill_constraint_geometry n ra1 ra2 none orb2 c).rot_axis1 =
        c.rot_axis1 ∧
    (fill_constraint_geometry n ra1 ra2 none orb2 c).weighted_rot_axis1 =
        c.weighted_rot_axis1 := by
  cases orb2 <;> exact ⟨rfl, rfl, rfl⟩

lemma fcg_side2_none (n ra1 ra2 : Vec3) (orb1 : Option RigidBody)
    (c : VelocityConstraint) :
    (fill_constraint_geometry n ra1 ra2 orb1 none c).weighted_normal2 =
        c.weighted_normal2 ∧
    (fill_constraint_geometry n ra1 ra2 orb1 none c).rot_axis2 =
        c.rot_axis2 ∧
    (fill_constraint_geometry n ra1 ra2 orb1 none c).weighted_rot_axis2 =
        c.weighted_rot_axis2 := by
  cases orb1 <;> exact ⟨rfl, rfl, rfl⟩

/-- Characterization of fill_velocity_constraint: its result is the
geometry-filled record with the body indices, the objective (the negated and
possibly restitution-amplified extrapolated relative velocity plus the
penetration bias), the warm-start impulse (zeroed for a separating depth)
and the bounds written on top. -/
lemma fill_velocity_constraint_spec (dt : ℚ) (normal center : Vec3)
    (restitution depth initial_impulse lobound hibound : ℚ)
    (rb1 rb2 : RigidBody) (c : VelocityConstraint)
    (correction : CorrectionParameters) :
    fill_velocity_constraint dt normal center restitution depth
        initial_impulse lobound hibound rb1 rb2 c correction =
      (let ra1 := contactRotAxis1 center rb1 normal
       let ra2 := contactRotAxis2 center rb2 normal
       let g := fill_constraint_geometry normal ra1 ra2 (optBody rb1)
         (optBody rb2) c
       let rv := contactRelVel dt normal center rb1 rb2
       { g with
         id1 := rb1.index, id2 := rb2.index,
         objective :=
           (if rv < -correction.rest_eps then -((1 + restitution) * rv)
            else -rv) + penBias correction depth dt,
         impulse := if depth < 0 then 0 else initial_impulse,
         lobound := lobound, hibound := hibound }) := by
  have hrv : relative_velocity (optBody rb1) (optBody rb2)
      (fill_constraint_geometry normal (contactRotAxis1 center rb1 normal)
        (contactRotAxis2 center rb2 normal) (optBody rb1) (optBody rb2)
        c).normal
      (fill_constraint_geometry normal (contactRotAxis1 center rb1 normal)
        (contactRotAxis2 center rb2 normal) (optBody rb1) (optBody rb2)
        c).rot_axis1
      (fill_constraint_geometry normal (contactRotAxis1 center rb1 normal)
        (contactRotAxis2 center rb2 normal) (optBody rb1) (optBody rb2)
        c).rot_axis2 dt = contactRelVel dt normal center rb1 rb2 := by
    rw [fcg_normal, fcg_rot_axis1, fcg_rot_axis2]
    unfold contactRelVel optBody
    cases h1 : rb1.canMove <;> cases h2 : rb2.canMove <;>
      simp [relative_velocity]
  have e1 : (if rb1.canMove then some rb1 else none) = optBody rb1 := rfl
  have e2 : (if rb2.canMove then some rb2 else none) = optBody rb2 := rfl
  have a1 : Vec3.cross (center - rb1.centerOfMass) (-normal) =
      contactRotAxis1 center rb1 normal := rfl
  have a2 : Vec3.cross (center - rb2.centerOfMass) normal =
      contactRotAxis2 center rb2 normal := rfl
  unfold fill_velocity_constraint
  simp only [e1, e2, a1, a2, hrv, penBias]
  split_ifs
  all_goals simp only [VelocityConstraint.mk.injEq]
  all_goals try norm_num
  all_goals try ring

lemma getD_set_self {α : Type} (l : List α) (n : ℕ) (a d : α)
    (h : n < l.length) : (l.set n a).getD n d = a := by
  rw [List.getD_eq_getElem?_getD, List.getElem?_set_self h]
  rfl

lemma getD_set_other {α : Type} (l : List α) (m n : ℕ) (a d : α)
    (h : m ≠ n) : (l.set m a).getD n d = l.getD n d := by
  rw [List.getD_eq_getElem?_getD, List.getElem?_set_ne h,
    List.getD_eq_getElem?_getD]

lemma frictionLoop_length (dt : ℚ) (center : Vec3) (rb1 rb2 : RigidBody)
    (correction : CorrectionParameters) (cache : ℕ → ℚ) (friction : ℚ)
    (idr idf : ℕ) :
    ∀ (axes : List Vec3) (i : ℕ) (fcs : List VelocityConstraint),
    (frictionLoop dt center rb1 rb2 correction cache friction idr idf i axes
      fcs).length = fcs.length := by
  intro axes
  induction axes with
  | nil => intro i fcs; rfl
  | cons ax rest ih =>
    intro i fcs
    rw [frictionLoop, ih]
    exact List.length_set fcs _ _

lemma frictionLoop_getD_below (dt : ℚ) (center : Vec3)
    (rb1 rb2 : RigidBody) (correction : CorrectionParameters)
    (cache : ℕ → ℚ) (friction : ℚ) (idr idf : ℕ) :
    ∀ (axes : List Vec3) (i : ℕ) (fcs : List VelocityConstraint) (k : ℕ),
    k < idf + i →
    (frictionLoop dt center rb1 rb2 correction cache friction idr idf i axes
      fcs).getD k zeroConstraint = fcs.getD k zeroConstraint := by
  intro axes
  induction axes with
  | nil => intro i fcs k _; rfl
  | cons ax rest ih =>
    intro i fcs k hk
    rw [frictionLoop, ih _ _ _ (by omega), getD_set_other _ _ _ _ _
      (by omega)]

lemma frictionLoop_getD_above (dt : ℚ) (center : Vec3)
    (rb1 rb2 : RigidBody) (correction : CorrectionParameters)
    (cache : ℕ → ℚ) (friction : ℚ) (idr idf : ℕ) :
    ∀ (axes : List Vec3) (i : ℕ) (fcs : List VelocityConstraint) (k : ℕ),
    idf + i + axes.length ≤ k →
    (frictionLoop dt center rb1 rb2 correction cache friction idr idf i axes
      fcs).getD k zeroConstraint = fcs.getD k zeroConstraint := by
  intro axes
  induction axes with
  | nil => intro i fcs k _; rfl
  | cons ax rest ih =>
    intro i fcs k hk
    simp only [List.length_cons] at hk
    rw [frictionLoop, ih _ _ _ (by omega), getD_set_other _ _ _ _ _
      (by omega)]

lemma frictionLoop_getD_filled (dt : ℚ) (center : Vec3)
    (rb1 rb2 : RigidBody) (correction : CorrectionParameters)
    (cache : ℕ → ℚ) (friction : ℚ) (idr idf : ℕ) :
    ∀ (axes : List Vec3) (i : ℕ) (fcs : List VelocityConstraint) (j : ℕ),
    j < axes.length → idf + i + j < fcs.length →
    (frictionLoop dt center rb1 rb2 correction cache friction idr idf i axes
        fcs).getD (idf + i + j) zeroConstraint =
      fillFrictionConstraint dt center rb1 rb2 correction friction idr
        (cache (i + j + 1)) (axes.getD j Vec3.zero)
        (fcs.getD (idf + i + j) zeroConstraint) := by
  intro axes
  induction axes with
  | nil => intro i fcs j hj _; exact absurd hj (Nat.not_lt_zero j)
  | cons ax rest ih =>
    intro i fcs j hj hlen
    match j with
    | 0 =>
      simp only [Nat.add_zero]
      rw [frictionLoop]
      have hb := frictionLoop_getD_below dt center rb1 rb2 correction cache
        friction idr idf rest (i + 1)
      rw [hb _ _ (by omega), getD_set_self _ _ _ _ (by omega)]
      rfl
    | j' + 1 =>
      rw [frictionLoop]
      have harith : idf + i + (j' + 1) = idf + (i + 1) + j' := by omega
      rw [harith]
      rw [ih (i + 1) _ j' (by simpa using hj) (by simp; omega)]
      rw [getD_set_other _ _ _ _ _ (by omega)]
      have harith2 : i + 1 + j' + 1 = i + (j' + 1) + 1 := by omega
      rw [harith2]
      rfl

/-!
Claim theorems.
-/

/-- C4: is_valid returns false exactly when the two references identify the
same body (equal allocation addresses) or neither body can move; in
particular it returns true whenever the bodies are distinct and at least one
of them can move. -/
theorem is_valid_false_iff (a b : RigidBody) :
    is_valid a b = false ↔
      a.addr = b.addr ∨ (a.canMove = false ∧ b.canMove = false) := by
  unfold is_valid refEq
  by_cases h : a.addr = b.addr <;>
    cases h1 : a.canMove <;> cases h2 : b.canMove <;> simp [h, h1, h2]

/-- C3: during one update pass over the tracked pairs, a pair whose contact
count crosses zero in either direction (from 0 to nonzero or from nonzero to
0) contributes a will_activate request for each of its two bodies, exactly
once each and nothing else; a pair whose count does not cross zero -- in
particular one transitioning between two nonzero counts -- contributes no
request. -/
theorem update_wake_reports (pairs : List TrackedPair) :
    update pairs = pairs.flatMap (fun p =>
      if (p.ncolsBefore = 0 ∧ p.ncolsAfter ≠ 0) ∨
         (p.ncolsBefore ≠ 0 ∧ p.ncolsAfter = 0) then [p.b1, p.b2]
      else []) := by
  unfold update
  congr 1
  funext p
  by_cases h1 : p.ncolsBefore = 0 <;> by_cases h2 : p.ncolsAfter = 0 <;>
    simp [h1, h2]

/-- C8: when remove is called on an inactive body, the bodies reported to
the activation manager are exactly the tracked bodies that are distinct from
the removed one, whose bounding volume overlaps the removed body's bounding
volume, and which are themselves inactive and movable. -/
theorem remove_wake_reports (world : List RigidBody) (o : RigidBody)
    (h : o.isActive = false) (b : RigidBody) :
    b ∈ remove world o ↔
      b ∈ world ∧ b.addr ≠ o.addr ∧
      AABB.intersects b.boundingVolume o.boundingVolume = true ∧
      b.isActive = false ∧ b.canMove = true := by
  unfold remove interferences_with_bounding_volume refEq
  simp only [h, Bool.not_false, if_pos, List.mem_filter, Bool.and_eq_true,
    Bool.not_eq_true', beq_eq_false_iff_ne, ne_eq]
  constructor
  · rintro ⟨⟨hb, hov⟩, hne, hia, hcm⟩
    exact ⟨hb, hne, hov, hia, hcm⟩
  · rintro ⟨hb, hne, hov, hia, hcm⟩
    exact ⟨⟨hb, hov⟩, hne, hia, hcm⟩

/-- C8 witness: removing a concrete inactive body at the origin from a
two-body world reports exactly the overlapping inactive movable
neighbor. -/
theorem remove_wake_reports_witness :
    (({ addr := 0, restitution := 0, friction := 0,
        centerOfMass := Vec3.zero, invMass := 0, invInertia := Mat3.zero,
        linVel := Vec3.zero, angVel := Vec3.zero, linAcc := Vec3.zero,
        angAcc := Vec3.zero, canMove := false, index := 0, isActive := false,
        boundingVolume := ⟨⟨0, 0, 0⟩, ⟨1, 1, 1⟩⟩ } : RigidBody).isActive
      = false) ∧
    (({ addr := 1, restitution := 0, friction := 0,
        centerOfMass := Vec3.zero, invMass := 1, invInertia := Mat3.zero,
        linVel := Vec3.zero, angVel := Vec3.zero, linAcc := Vec3.zero,
        angAcc := Vec3.zero, canMove := true, index := 1, isActive := false,
        boundingVolume := ⟨⟨0, 0, 0⟩, ⟨1, 1, 1⟩⟩ } : RigidBody) ∈
      remove
        [{ addr := 1, restitution := 0, friction := 0,
           centerOfMass := Vec3.zero, invMass := 1, invInertia := Mat3.zero,
           linVel := Vec3.zero, angVel := Vec3.zero, linAcc := Vec3.zero,
           angAcc := Vec3.zero, canMove := true, index := 1,
           isActive := false,
           boundingVolume := ⟨⟨0, 0, 0⟩, ⟨1, 1, 1⟩⟩ }]
        { addr := 0, restitution := 0, friction := 0,
          centerOfMass := Vec3.zero, invMass := 0, invInertia := Mat3.zero,
          linVel := Vec3.zero, angVel := Vec3.zero, linAcc := Vec3.zero,
          angAcc := Vec3.zero, canMove := false, index := 0,
          isActive := false,
          boundingVolume := ⟨⟨0, 0, 0⟩, ⟨1, 1, 1⟩⟩ }) := by
  refine ⟨rfl, ?_⟩
  exact (remove_wake_reports _ _ rfl _).mpr (by decide)

/-- C2 counterexample: under CorrectionMode.VelocityAndPosition(1, 1, 10)
with depth 5 (below the threshold 10) and dt = 1, the reinit pass sets the
objective to 0, not to fp * max(depth, 0) / dt = 5: the threshold argument
of VelocityAndPosition does gate positional correction. -/
theorem reinit_velocity_and_position_counterexample :
    (reinit_to_first_order_equation 1
        { world1 := Vec3.zero, world2 := Vec3.zero, normal := Vec3.zero,
          depth := 5 }
        zeroConstraint
        { corr_mode := CorrectionMode.VelocityAndPosition 1 1 10,
          joint_corr := 0, rest_eps := 0 }).objective = 0 ∧
    ¬ ((reinit_to_first_order_equation 1
        { world1 := Vec3.zero, world2 := Vec3.zero, normal := Vec3.zero,
          depth := 5 }
        zeroConstraint
        { corr_mode := CorrectionMode.VelocityAndPosition 1 1 10,
          joint_corr := 0, rest_eps := 0 }).objective =
      1 * max (5 : ℚ) 0 / 1) := by
  have h0 : (reinit_to_first_order_equation 1
      { world1 := Vec3.zero, world2 := Vec3.zero, normal := Vec3.zero,
        depth := 5 }
      zeroConstraint
      { corr_mode := CorrectionMode.VelocityAndPosition 1 1 10,
        joint_corr := 0, rest_eps := 0 }).objective = 0 := by decide
  refine ⟨h0, ?_⟩
  rw [h0]
  norm_num

/-- C2 amended: under CorrectionMode.VelocityAndPosition(fv, fp, threshold)
the reinit pass applies the positional bias fp * max(depth, 0) / dt exactly
when depth is at least the threshold and sets the objective to 0 otherwise
(and always zeroes the impulse): the threshold parameter is used, through
min_depth_for_pos_corr, to decide whether position is corrected. -/
theorem reinit_velocity_and_position_spec (fv fp t dt jc re : ℚ)
    (coll : Contact) (c : VelocityConstraint) :
    (reinit_to_first_order_equation dt coll c
        { corr_mode := CorrectionMode.VelocityAndPosition fv fp t,
          joint_corr := jc, rest_eps := re }).objective =
      (if coll.depth ≥ t then fp * max coll.depth 0 / dt else 0) ∧
    (reinit_to_first_order_equation dt coll c
        { corr_mode := CorrectionMode.VelocityAndPosition fv fp t,
          joint_corr := jc, rest_eps := re }).impulse = 0 ∧
    (CorrectionMode.VelocityAndPosition fv fp t).min_depth_for_pos_corr =
      t := by
  unfold reinit_to_first_order_equation
  refine ⟨?_, ?_, rfl⟩
  · by_cases h : coll.depth ≥ t <;>
      simp [h, CorrectionMode.min_depth_for_pos_corr,
        CorrectionMode.pos_corr_factor]
  · by_cases h : coll.depth ≥ t <;>
      simp [h, CorrectionMode.min_depth_for_pos_corr]

/-- C6: the penetration bias added to the constraint objective is depth/dt
when depth < 0, depth * vel_corr_factor / dt when 0 <= depth is below the
correction mode's max-depth-for-velocity-correction, and nothing beyond the
cap; and at depth -1/100 with dt 16/1000 this bias is -5/8, whatever the
correction parameters. -/
theorem objective_penetration_bias (dt : ℚ) (normal center : Vec3)
    (restitution depth initial_impulse lobound hibound : ℚ)
    (rb1 rb2 : RigidBody) (c : VelocityConstraint)
    (correction : CorrectionParameters) :
    ((fill_velocity_constraint dt normal center restitution depth
        initial_impulse lobound hibound rb1 rb2 c correction).objective =
      (if contactRelVel dt normal center rb1 rb2 < -correction.rest_eps then
        -((1 + restitution) * contactRelVel dt normal center rb1 rb2)
       else -contactRelVel dt normal center rb1 rb2) +
      (if depth < 0 then depth / dt
       else if depth < correction.corr_mode.max_depth_for_vel_corr then
         depth * correction.corr_mode.vel_corr_factor / dt
       else 0)) ∧
    penBias correction (-(1 / 100)) (16 / 1000) = -(5 / 8) := by
  constructor
  · rw [fill_velocity_constraint_spec]
    rfl
  · rw [penBias, if_pos (by norm_num)]
    norm_num

/-- C5: the objective of the normal constraint filled by
fill_second_order_equation is the penetration bias plus the negated relative
velocity of the two bodies along the contact normal (each movable body's
linear and angular velocities extrapolated one timestep by its
accelerations), amplified by the factor 1 + restitution -- restitution being
the product of the two bodies' restitution coefficients -- exactly when that
relative velocity is more negative than -rest_eps. -/
theorem normal_objective_restitution (dt : ℚ) (coll : Contact)
    (rb1 rb2 : RigidBody) (rconstraint : VelocityConstraint) (idr : ℕ)
    (fconstraints : List VelocityConstraint) (idf : ℕ) (cache : ℕ → ℚ)
    (correction : CorrectionParameters) (frictionAxes : List Vec3) :
    ((fill_second_order_equation dt coll rb1 rb2 rconstraint idr
        fconstraints idf cache correction frictionAxes).1).objective =
      (if contactRelVel dt coll.normal (contactCenter coll) rb1 rb2 <
          -correction.rest_eps then
        -((1 + rb1.restitution * rb2.restitution) *
          contactRelVel dt coll.normal (contactCenter coll) rb1 rb2)
       else -contactRelVel dt coll.normal (contactCenter coll) rb1 rb2) +
      penBias correction coll.depth dt := by
  show (fill_velocity_constraint dt coll.normal
      (Vec3.smul (1 / 2) (coll.world1 + coll.world2))
      (rb1.restitution * rb2.restitution) coll.depth (cache 0) 0
      boundedMaxValue rb1 rb2 rconstraint correction).objective = _
  rw [fill_velocity_constraint_spec]
  rfl

lemma dot_self_nonneg (v : Vec3) : 0 ≤ Vec3.dot v v := by
  unfold Vec3.dot
  have hx := mul_self_nonneg v.x
  have hy := mul_self_nonneg v.y
  have hz := mul_self_nonneg v.z
  linarith

lemma dot_smul_right (m : ℚ) (v : Vec3) :
    Vec3.dot v (Vec3.smul m v) = m * Vec3.dot v v := by
  unfold Vec3.dot Vec3.smul
  ring

lemma bodyMassContribution_nonneg (n a : Vec3) (orb : Option RigidBody)
    (h : ∀ b, orb = some b → 0 ≤ b.invMass ∧
      0 ≤ Vec3.dot a (Mat3.apply b.invInertia a)) :
    0 ≤ bodyMassContribution n a orb := by
  cases orb with
  | none => exact le_refl 0
  | some b =>
    obtain ⟨hm, hi⟩ := h b rfl
    simp only [bodyMassContribution]
    rw [dot_smul_right]
    have := mul_nonneg hm (dot_self_nonneg n)
    linarith

lemma bodyMassContribution_pos (n a : Vec3) (b : RigidBody)
    (hm : 0 < b.invMass) (hn : 0 < Vec3.dot n n)
    (hi : 0 ≤ Vec3.dot a (Mat3.apply b.invInertia a)) :
    0 < bodyMassContribution n a (some b) := by
  simp only [bodyMassContribution]
  rw [dot_smul_right]
  have := mul_pos hm hn
  linarith

/-- C7: fill_constraint_geometry sets inv_projected_mass to the reciprocal
of the effective-mass term accumulated only over the bodies that can move
(a movable body contributing dot(normal, inv_mass * normal) plus
dot(rot_axis, inv_inertia(rot_axis))); when at least one body is present
with positive inverse mass, the normal is non-degenerate and every present
body has nonnegative inverse mass and inertia quadratic form, the
accumulated term is strictly positive, so the division is by a nonzero
number and yields a strictly positive result. -/
theorem inv_projected_mass_reciprocal_pos (n ra1 ra2 : Vec3)
    (orb1 orb2 : Option RigidBody) (c : VelocityConstraint)
    (hmove : (∃ b, orb1 = some b ∧ 0 < b.invMass) ∨
      (∃ b, orb2 = some b ∧ 0 < b.invMass))
    (hn : 0 < Vec3.dot n n)
    (h1 : ∀ b, orb1 = some b → 0 ≤ b.invMass ∧
      0 ≤ Vec3.dot ra1 (Mat3.apply b.invInertia ra1))
    (h2 : ∀ b, orb2 = some b → 0 ≤ b.invMass ∧
      0 ≤ Vec3.dot ra2 (Mat3.apply b.invInertia ra2)) :
    0 < massTerm n ra1 ra2 orb1 orb2 ∧
    (fill_constraint_geometry n ra1 ra2 orb1 orb2 c).inv_projected_mass =
      1 / massTerm n ra1 ra2 orb1 orb2 ∧
    0 < VelocityConstraint.inv_projected_mass
      (fill_constraint_geometry n ra1 ra2 orb1 orb2 c) := by
  have hpos : 0 < massTerm n ra1 ra2 orb1 orb2 := by
    unfold massTerm
    rcases hmove with ⟨b, hb, hbm⟩ | ⟨b, hb, hbm⟩
    · subst hb
      have hc1 := bodyMassContribution_pos n ra1 b hbm hn (h1 b rfl).2
      have hc2 := bodyMassContribution_nonneg n ra2 orb2 h2
      linarith
    · subst hb
      have hc1 := bodyMassContribution_nonneg n ra1 orb1 h1
      have hc2 := bodyMassContribution_pos n ra2 b hbm hn (h2 b rfl).2
      linarith
  refine ⟨hpos, fcg_inv_projected_mass n ra1 ra2 orb1 orb2 c, ?_⟩
  rw [fcg_inv_projected_mass]
  exact div_pos one_pos hpos

/-- C7 witness: a unit normal along x, a movable unit-mass body on side 1
with zero inverse inertia and no body on side 2 give mass term 1 and
inv_projected_mass 1. -/
theorem inv_projected_mass_reciprocal_pos_witness :
    0 < massTerm ⟨1, 0, 0⟩ Vec3.zero Vec3.zero
      (some { addr := 0, restitution := 0, friction := 0,
              centerOfMass := Vec3.zero, invMass := 1,
              invInertia := Mat3.zero, linVel := Vec3.zero,
              angVel := Vec3.zero, linAcc := Vec3.zero,
              angAcc := Vec3.zero, canMove := true, index := 0,
              isActive := true,
              boundingVolume := ⟨Vec3.zero, Vec3.zero⟩ }) none ∧
    (fill_constraint_geometry ⟨1, 0, 0⟩ Vec3.zero Vec3.zero
      (some { addr := 0, restitution := 0, friction := 0,
              centerOfMass := Vec3.zero, invMass := 1,
              invInertia := Mat3.zero, linVel := Vec3.zero,
              angVel := Vec3.zero, linAcc := Vec3.zero,
              angAcc := Vec3.zero, canMove := true, index := 0,
              isActive := true,
              boundingVolume := ⟨Vec3.zero, Vec3.zero⟩ }) none
      zeroConstraint).inv_projected_mass =
      1 / massTerm ⟨1, 0, 0⟩ Vec3.zero Vec3.zero
        (some { addr := 0, restitution := 0, friction := 0,
                centerOfMass := Vec3.zero, invMass := 1,
                invInertia := Mat3.zero, linVel := Vec3.zero,
                angVel := Vec3.zero, linAcc := Vec3.zero,
                angAcc := Vec3.zero, canMove := true, index := 0,
                isActive := true,
                boundingVolume := ⟨Vec3.zero, Vec3.zero⟩ }) none ∧
    0 < (fill_constraint_geometry ⟨1, 0, 0⟩ Vec3.zero Vec3.zero
      (some { addr := 0, restitution := 0, friction := 0,
              centerOfMass := Vec3.zero, invMass := 1,
              invInertia := Mat3.zero, linVel := Vec3.zero,
              angVel := Vec3.zero, linAcc := Vec3.zero,
              angAcc := Vec3.zero, canMove := true, index := 0,
              isActive := true,
              boundingVolume := ⟨Vec3.zero, Vec3.zero⟩ }) none
      zeroConstraint).inv_projected_mass := by
  exact inv_projected_mass_reciprocal_pos _ _ _ _ _ _
    (Or.inl ⟨_, rfl, by norm_num⟩) (by norm_num [Vec3.dot])
    (by intro b hb; cases hb; constructor <;>
      norm_num [Vec3.dot, Mat3.apply, Mat3.zero, Vec3.zero])
    (by intro b hb; cases hb)

/-- C10: when a body passed to fill_velocity_constraint cannot move, the
constraint fields belonging to that body's side (weighted_normal, rot_axis
and weighted_rot_axis for that side) keep whatever values the destination
slot already held; the friction linkage fields are never written by this
function; and the fields normal, inv_projected_mass, the two body indices,
objective, impulse and the two bounds are written unconditionally, their
values not depending on the destination slot's prior contents. -/
theorem immovable_side_fields_untouched (dt : ℚ) (normal center : Vec3)
    (restitution depth initial_impulse lobound hibound : ℚ)
    (rb1 rb2 : RigidBody) (c c' : VelocityConstraint)
    (correction : CorrectionParameters) :
    (rb1.canMove = false →
      VelocityConstraint.weighted_normal1 (fill_velocity_constraint dt
          normal center restitution depth initial_impulse lobound hibound
          rb1 rb2 c correction) = c.weighted_normal1 ∧
      VelocityConstraint.rot_axis1 (fill_velocity_constraint dt normal
          center restitution depth initial_impulse lobound hibound rb1 rb2 c
          correction) = c.rot_axis1 ∧
      VelocityConstraint.weighted_rot_axis1 (fill_velocity_constraint dt
          normal center restitution depth initial_impulse lobound hibound
          rb1 rb2 c correction) = c.weighted_rot_axis1) ∧
    (rb2.canMove = false →
      VelocityConstraint.weighted_normal2 (fill_velocity_constraint dt
          normal center restitution depth initial_impulse lobound hibound
          rb1 rb2 c correction) = c.weighted_normal2 ∧
      VelocityConstraint.rot_axis2 (fill_velocity_constraint dt normal
          center restitution depth initial_impulse lobound hibound rb1 rb2 c
          correction) = c.rot_axis2 ∧
      VelocityConstraint.weighted_rot_axis2 (fill_velocity_constraint dt
          normal center restitution depth initial_impulse lobound hibound
          rb1 rb2 c correction) = c.weighted_rot_axis2) ∧
    VelocityConstraint.friction_coeff (fill_velocity_constraint dt normal
        center restitution depth initial_impulse lobound hibound rb1 rb2 c
        correction) = c.friction_coeff ∧
    VelocityConstraint.friction_limit_id (fill_velocity_constraint dt normal
        center restitution depth initial_impulse lobound hibound rb1 rb2 c
        correction) = c.friction_limit_id ∧
    (VelocityConstraint.normal (fill_velocity_constraint dt normal center
        restitution depth initial_impulse lobound hibound rb1 rb2 c
        correction) =
      VelocityConstraint.normal (fill_velocity_constraint dt normal center
        restitution depth initial_impulse lobound hibound rb1 rb2 c'
        correction) ∧
    VelocityConstraint.inv_projected_mass (fill_velocity_constraint dt
        normal center restitution depth initial_impulse lobound hibound rb1
        rb2 c correction) =
      VelocityConstraint.inv_projected_mass (fill_velocity_constraint dt
        normal center restitution depth initial_impulse lobound hibound rb1
        rb2 c' correction) ∧
    VelocityConstraint.id1 (fill_velocity_constraint dt normal center
        restitution depth initial_impulse lobound hibound rb1 rb2 c
        correction) =
      VelocityConstraint.id1 (fill_velocity_constraint dt normal center
        restitution depth initial_impulse lobound hibound rb1 rb2 c'
        correction) ∧
    VelocityConstraint.id2 (fill_velocity_constraint dt normal center
        restitution depth initial_impulse lobound hibound rb1 rb2 c
        correction) =
      VelocityConstraint.id2 (fill_velocity_constraint dt normal center
        restitution depth initial_impulse lobound hibound rb1 rb2 c'
        correction) ∧
    VelocityConstraint.objective (fill_velocity_constraint dt normal center
        restitution depth initial_impulse lobound hibound rb1 rb2 c
        correction) =
      VelocityConstraint.objective (fill_velocity_constraint dt normal
        center restitution depth initial_impulse lobound hibound rb1 rb2 c'
        correction) ∧
    VelocityConstraint.impulse (fill_velocity_constraint dt normal center
        restitution depth initial_impulse lobound hibound rb1 rb2 c
        correction) =
      VelocityConstraint.impulse (fill_velocity_constraint dt normal center
        restitution depth initial_impulse lobound hibound rb1 rb2 c'
        correction) ∧
    VelocityConstraint.lobound (fill_velocity_constraint dt normal center
        restitution depth initial_impulse lobound hibound rb1 rb2 c
        correction) =
      VelocityConstraint.lobound (fill_velocity_constraint dt normal center
        restitution depth initial_impulse lobound hibound rb1 rb2 c'
        correction) ∧
    VelocityConstraint.hibound (fill_velocity_constraint dt normal center
        restitution depth initial_impulse lobound hibound rb1 rb2 c
        correction) =
      VelocityConstraint.hibound (fill_velocity_constraint dt normal center
        restitution depth initial_impulse lobound hibound rb1 rb2 c'
        correction)) := by
  rw [fill_velocity_constraint_spec dt normal center restitution depth
    initial_impulse lobound hibound rb1 rb2 c correction,
    fill_velocity_constraint_spec dt normal center restitution depth
    initial_impulse lobound hibound rb1 rb2 c' correction]
  refine ⟨?_, ?_, ?_, ?_, ?_⟩
  · intro h1
    have hopt : optBody rb1 = none := by simp [optBody, h1]
    simp only [hopt]
    exact fcg_side1_none _ _ _ _ _
  · intro h2
    have hopt : optBody rb2 = none := by simp [optBody, h2]
    simp only [hopt]
    exact fcg_side2_none _ _ _ _ _
  · exact (fcg_untouched _ _ _ _ _ _).2.2.2.2.1
  · exact (fcg_untouched _ _ _ _ _ _).2.2.2.2.2.1
  · refine ⟨?_, ?_, rfl, rfl, rfl, rfl, rfl, rfl⟩
    · rw [fcg_normal, fcg_normal]
    · rw [fcg_inv_projected_mass, fcg_inv_projected_mass]

/-- C10 witness: with both concrete bodies immovable, the stale per-body and
friction fields of the concrete destination slot survive the fill. -/
theorem immovable_side_fields_untouched_witness :
    (VelocityConstraint.weighted_normal1 (fill_velocity_constraint 1
        ⟨1, 0, 0⟩ Vec3.zero 0 1 5 0 0 exStaticBody exStaticBody
        exPrevConstraint exCorrection) =
      exPrevConstraint.weighted_normal1 ∧
     VelocityConstraint.rot_axis1 (fill_velocity_constraint 1 ⟨1, 0, 0⟩
        Vec3.zero 0 1 5 0 0 exStaticBody exStaticBody exPrevConstraint
        exCorrection) = exPrevConstraint.rot_axis1 ∧
     VelocityConstraint.weighted_rot_axis1 (fill_velocity_constraint 1
        ⟨1, 0, 0⟩ Vec3.zero 0 1 5 0 0 exStaticBody exStaticBody
        exPrevConstraint exCorrection) =
      exPrevConstraint.weighted_rot_axis1) ∧
    (VelocityConstraint.weighted_normal2 (fill_velocity_constraint 1
        ⟨1, 0, 0⟩ Vec3.zero 0 1 5 0 0 exStaticBody exStaticBody
        exPrevConstraint exCorrection) =
      exPrevConstraint.weighted_normal2 ∧
     VelocityConstraint.rot_axis2 (fill_velocity_constraint 1 ⟨1, 0, 0⟩
        Vec3.zero 0 1 5 0 0 exStaticBody exStaticBody exPrevConstraint
        exCorrection) = exPrevConstraint.rot_axis2 ∧
     VelocityConstraint.weighted_rot_axis2 (fill_velocity_constraint 1
        ⟨1, 0, 0⟩ Vec3.zero 0 1 5 0 0 exStaticBody exStaticBody
        exPrevConstraint exCorrection) =
      exPrevConstraint.weighted_rot_axis2) ∧
    VelocityConstraint.friction_coeff (fill_velocity_constraint 1 ⟨1, 0, 0⟩
        Vec3.zero 0 1 5 0 0 exStaticBody exStaticBody exPrevConstraint
        exCorrection) = exPrevConstraint.friction_coeff := by
  have h := immovable_side_fields_untouched 1 ⟨1, 0, 0⟩ Vec3.zero 0 1 5 0 0
    exStaticBody exStaticBody exPrevConstraint zeroConstraint exCorrection
  exact ⟨h.1 rfl, h.2.1 rfl, h.2.2.1⟩

/-- C1 counterexample: for the concrete separating contact of depth -1, the
friction slot filled from that contact keeps the cached impulse 7 instead of
being reset to zero, so a constraint slot filled from a contact of negative
depth can carry a nonzero warm-start impulse. -/
theorem warm_start_separating_counterexample :
    exSeparatingContact.depth < 0 ∧
    VelocityConstraint.impulse
      ((fill_second_order_equation 1 exSeparatingContact exMovingBody1
          exMovingBody2 zeroConstraint 0 [zeroConstraint, zeroConstraint] 0
          exCache exCorrection exFrictionAxes).2.getD 0 zeroConstraint) =
      7 := by
  constructor
  · norm_num [exSeparatingContact]
  · decide

/-- C1 amended: for a contact with negative depth, the normal-constraint
slot receives warm-start impulse zero regardless of the cached value, while
every friction slot filled from that same contact is filled with depth 0 and
therefore always receives its cached impulse, even though the contact is
separating. -/
theorem warm_start_impulse_separating (dt : ℚ) (coll : Contact)
    (rb1 rb2 : RigidBody) (rconstraint : VelocityConstraint) (idr : ℕ)
    (fconstraints : List VelocityConstraint) (idf : ℕ) (cache : ℕ → ℚ)
    (correction : CorrectionParameters) (frictionAxes : List Vec3)
    (hdepth : coll.depth < 0) (j : ℕ) (hj : j < frictionAxes.length)
    (hlen : idf + j < fconstraints.length) :
    VelocityConstraint.impulse (fill_second_order_equation dt coll rb1 rb2
      rconstraint idr fconstraints idf cache correction frictionAxes).1 =
      0 ∧
    VelocityConstraint.impulse ((fill_second_order_equation dt coll rb1 rb2
        rconstraint idr fconstraints idf cache correction
        frictionAxes).2.getD (idf + j) zeroConstraint) = cache (j + 1) := by
  constructor
  · have h1 : (fill_second_order_equation dt coll rb1 rb2 rconstraint idr
        fconstraints idf cache correction frictionAxes).1 =
        fill_velocity_constraint dt coll.normal
          (Vec3.smul (1 / 2) (coll.world1 + coll.world2))
          (rb1.restitution * rb2.restitution) coll.depth (cache 0) 0
          boundedMaxValue rb1 rb2 rconstraint correction := rfl
    rw [h1, fill_velocity_constraint_spec]
    exact if_pos hdepth
  · have h2 : (fill_second_order_equation dt coll rb1 rb2 rconstraint idr
        fconstraints idf cache correction frictionAxes).2 =
        frictionLoop dt (Vec3.smul (1 / 2) (coll.world1 + coll.world2)) rb1
          rb2 correction cache (rb1.friction * rb2.friction) idr idf 0
          frictionAxes fconstraints := rfl
    rw [h2]
    have hj0 : idf + 0 + j < fconstraints.length := by omega
    have hfill := frictionLoop_getD_filled dt
      (Vec3.smul (1 / 2) (coll.world1 + coll.world2)) rb1 rb2 correction
      cache (rb1.friction * rb2.friction) idr idf frictionAxes 0
      fconstraints j hj hj0
    rw [Nat.zero_add] at hfill
    rw [Nat.add_zero] at hfill
    rw [hfill]
    unfold fillFrictionConstraint
    rw [fill_velocity_constraint_spec]
    show (if (0 : ℚ) < 0 then (0 : ℚ) else cache (j + 1)) = cache (j + 1)
    exact if_neg (lt_irrefl (0 : ℚ))

/-- C1 amended witness: at the concrete separating contact, the normal slot
gets impulse 0 while friction slot 0 keeps the cached value 7. -/
theorem warm_start_impulse_separating_witness :
    VelocityConstraint.impulse (fill_second_order_equation 1
      exSeparatingContact exMovingBody1 exMovingBody2 zeroConstraint 0
      [zeroConstraint, zeroConstraint] 0 exCache exCorrection
      exFrictionAxes).1 = 0 ∧
    VelocityConstraint.impulse ((fill_second_order_equation 1
        exSeparatingContact exMovingBody1 exMovingBody2 zeroConstraint 0
        [zeroConstraint, zeroConstraint] 0 exCache exCorrection
        exFrictionAxes).2.getD 0 zeroConstraint) = exCache 1 := by
  exact warm_start_impulse_separating 1 exSeparatingContact exMovingBody1
    exMovingBody2 zeroConstraint 0 [zeroConstraint, zeroConstraint] 0
    exCache exCorrection exFrictionAxes (by norm_num [exSeparatingContact])
    0 (by decide) (by decide)

/-- C9: fill_second_order_equation produces one normal constraint with
lobound 0, hibound Bounded::max_value (the stand-in for plus infinity) and
the two bodies' indices, and fills exactly one friction constraint per
friction axis (dimension minus one axes for the orthonormal basis produced
by nalgebra), each with both bounds left 0, friction_coeff the product of
the two bodies' friction coefficients, friction_limit_id the normal
constraint's slot index idr, the same two body indices, and -- being filled
with restitution 0 and depth 0 -- an objective that is exactly the negated
relative velocity along its axis, with no restitution amplification and no
penetration bias; slots outside the friction range are untouched. -/
theorem second_order_equation_shape (dt : ℚ) (coll : Contact)
    (rb1 rb2 : RigidBody) (rconstraint : VelocityConstraint) (idr : ℕ)
    (fconstraints : List VelocityConstraint) (idf : ℕ) (cache : ℕ → ℚ)
    (correction : CorrectionParameters) (frictionAxes : List Vec3)
    (hlen : idf + frictionAxes.length ≤ fconstraints.length) :
    VelocityConstraint.lobound (fill_second_order_equation dt coll rb1 rb2 rconstraint idr
        fconstraints idf cache correction frictionAxes).1 = 0 ∧
    VelocityConstraint.hibound (fill_second_order_equation dt coll rb1 rb2 rconstraint idr
        fconstraints idf cache correction frictionAxes).1 = boundedMaxValue ∧
    VelocityConstraint.id1 (fill_second_order_equation dt coll rb1 rb2 rconstraint idr
        fconstraints idf cache correction frictionAxes).1 = rb1.index ∧
    VelocityConstraint.id2 (fill_second_order_equation dt coll rb1 rb2 rconstraint idr
        fconstraints idf cache correction frictionAxes).1 = rb2.index ∧
    ((fill_second_order_equation dt coll rb1 rb2 rconstraint idr
        fconstraints idf cache correction frictionAxes).2).length = fconstraints.length ∧
    (∀ j, j < frictionAxes.length →
      VelocityConstraint.lobound ((fill_second_order_equation dt coll rb1 rb2 rconstraint idr
        fconstraints idf cache correction frictionAxes).2.getD (idf + j) zeroConstraint) = 0 ∧
      VelocityConstraint.hibound ((fill_second_order_equation dt coll rb1 rb2 rconstraint idr
        fconstraints idf cache correction frictionAxes).2.getD (idf + j) zeroConstraint) = 0 ∧
      VelocityConstraint.friction_coeff ((fill_second_order_equation dt coll rb1 rb2 rconstraint idr
        fconstraints idf cache correction frictionAxes).2.getD (idf + j) zeroConstraint) = rb1.friction * rb2.friction ∧
      VelocityConstraint.friction_limit_id ((fill_second_order_equation dt coll rb1 rb2 rconstraint idr
        fconstraints idf cache correction frictionAxes).2.getD (idf + j) zeroConstraint) = idr ∧
      VelocityConstraint.id1 ((fill_second_order_equation dt coll rb1 rb2 rconstraint idr
        fconstraints idf cache correction frictionAxes).2.getD (idf + j) zeroConstraint) = rb1.index ∧
      VelocityConstraint.id2 ((fill_second_order_equation dt coll rb1 rb2 rconstraint idr
        fconstraints idf cache correction frictionAxes).2.getD (idf + j) zeroConstraint) = rb2.index ∧
      VelocityConstraint.objective ((fill_second_order_equation dt coll rb1 rb2 rconstraint idr
        fconstraints idf cache correction frictionAxes).2.getD (idf + j) zeroConstraint) =
        -(relative_velocity (optBody rb1) (optBody rb2)
          (frictionAxes.getD j Vec3.zero)
          (contactRotAxis1 (contactCenter coll) rb1
            (frictionAxes.getD j Vec3.zero))
          (contactRotAxis2 (contactCenter coll) rb2
            (frictionAxes.getD j Vec3.zero)) dt)) ∧
    (∀ k, k < idf ∨ idf + frictionAxes.length ≤ k →
      (fill_second_order_equation dt coll rb1 rb2 rconstraint idr
        fconstraints idf cache correction frictionAxes).2.getD k zeroConstraint = fconstraints.getD k zeroConstraint) := by
  have h1 : (fill_second_order_equation dt coll rb1 rb2 rconstraint idr
        fconstraints idf cache correction frictionAxes).1 =
      fill_velocity_constraint dt coll.normal
        (Vec3.smul (1 / 2) (coll.world1 + coll.world2))
        (rb1.restitution * rb2.restitution) coll.depth (cache 0) 0
        boundedMaxValue rb1 rb2 rconstraint correction := rfl
  have h2 : (fill_second_order_equation dt coll rb1 rb2 rconstraint idr
        fconstraints idf cache correction frictionAxes).2 =
      frictionLoop dt (Vec3.smul (1 / 2) (coll.world1 + coll.world2)) rb1
        rb2 correction cache (rb1.friction * rb2.friction) idr idf 0
        frictionAxes fconstraints := rfl
  refine ⟨?_, ?_, ?_, ?_, ?_, ?_, ?_⟩
  · rw [h1, fill_velocity_constraint_spec]
  · rw [h1, fill_velocity_constraint_spec]
  · rw [h1, fill_velocity_constraint_spec]
  · rw [h1, fill_velocity_constraint_spec]
  · rw [h2]
    exact frictionLoop_length dt _ rb1 rb2 correction cache _ idr idf
      frictionAxes 0 fconstraints
  · intro j hj
    have hj0 : idf + 0 + j < fconstraints.length := by omega
    have hfill := frictionLoop_getD_filled dt
      (Vec3.smul (1 / 2) (coll.world1 + coll.world2)) rb1 rb2 correction
      cache (rb1.friction * rb2.friction) idr idf frictionAxes 0
      fconstraints j hj hj0
    rw [Nat.zero_add] at hfill
    rw [Nat.add_zero] at hfill
    rw [h2, hfill]
    unfold fillFrictionConstraint
    rw [fill_velocity_constraint_spec]
    refine ⟨rfl, rfl, rfl, rfl, rfl, rfl, ?_⟩
    show (if contactRelVel dt (frictionAxes.getD j Vec3.zero)
        (Vec3.smul (1 / 2) (coll.world1 + coll.world2)) rb1 rb2 <
          -correction.rest_eps then
        -((1 + 0) * contactRelVel dt (frictionAxes.getD j Vec3.zero)
          (Vec3.smul (1 / 2) (coll.world1 + coll.world2)) rb1 rb2)
      else -contactRelVel dt (frictionAxes.getD j Vec3.zero)
        (Vec3.smul (1 / 2) (coll.world1 + coll.world2)) rb1 rb2) +
      penBias correction 0 dt = _
    unfold penBias contactRelVel contactCenter
    split_ifs <;> ring
  · intro k hk
    rw [h2]
    rcases hk with hk | hk
    · exact frictionLoop_getD_below dt _ rb1 rb2 correction cache _ idr idf
        frictionAxes 0 fconstraints k (by omega)
    · exact frictionLoop_getD_above dt _ rb1 rb2 correction cache _ idr idf
        frictionAxes 0 fconstraints k (by omega)

/-- C9 witness: at the concrete contact with two friction axes and two
friction slots, the normal slot gets bounds 0 and Bounded::max_value and the
first friction slot is linked to normal slot 0 with the bodies' combined
friction coefficient and zero bounds. -/
theorem second_order_equation_shape_witness :
    0 + exFrictionAxes.length ≤
      ([zeroConstraint, zeroConstraint] : List VelocityConstraint).length ∧
    VelocityConstraint.lobound (fill_second_order_equation 1
      exSeparatingContact exMovingBody1 exMovingBody2 zeroConstraint 0
      [zeroConstraint, zeroConstraint] 0 exCache exCorrection
      exFrictionAxes).1 = 0 ∧
    VelocityConstraint.hibound (fill_second_order_equation 1
      exSeparatingContact exMovingBody1 exMovingBody2 zeroConstraint 0
      [zeroConstraint, zeroConstraint] 0 exCache exCorrection
      exFrictionAxes).1 = boundedMaxValue ∧
    VelocityConstraint.lobound ((fill_second_order_equation 1
        exSeparatingContact exMovingBody1 exMovingBody2 zeroConstraint 0
        [zeroConstraint, zeroConstraint] 0 exCache exCorrection
        exFrictionAxes).2.getD (0 + 0) zeroConstraint) = 0 ∧
    VelocityConstraint.hibound ((fill_second_order_equation 1
        exSeparatingContact exMovingBody1 exMovingBody2 zeroConstraint 0
        [zeroConstraint, zeroConstraint] 0 exCache exCorrection
        exFrictionAxes).2.getD (0 + 0) zeroConstraint) = 0 ∧
    VelocityConstraint.friction_coeff ((fill_second_order_equation 1
        exSeparatingContact exMovingBody1 exMovingBody2 zeroConstraint 0
        [zeroConstraint, zeroConstraint] 0 exCache exCorrection
        exFrictionAxes).2.getD (0 + 0) zeroConstraint) =
      exMovingBody1.friction * exMovingBody2.friction ∧
    VelocityConstraint.friction_limit_id ((fill_second_order_equation 1
        exSeparatingContact exMovingBody1 exMovingBody2 zeroConstraint 0
        [zeroConstraint, zeroConstraint] 0 exCache exCorrection
        exFrictionAxes).2.getD (0 + 0) zeroConstraint) = 0 := by
  have h := second_order_equation_shape 1 exSeparatingContact exMovingBody1
    exMovingBody2 zeroConstraint 0 [zeroConstraint, zeroConstraint] 0
    exCache exCorrection exFrictionAxes (by decide)
  have hj := h.2.2.2.2.2.1 0 (by decide)
  exact ⟨by decide, h.1, h.2.1, hj.1, hj.2.1, hj.2.2.1, hj.2.2.2.1⟩
